import Mathlib

/-!
Verification of the ingest-worker subsystem of the dashboard repository.

The TypeScript worker is shallowly embedded: pure functions become Lean
functions, SQL statements become pure transformations of lists of rows,
JS numbers become rationals, JS strings become Lean strings (or lists of
characters where per-character length reasoning is needed), and nullable
values become options.  Foreign runtime behaviour (the JS Date parser,
the JS Number() conversion) is passed in as an explicit function
parameter.
-/

namespace Dashboard

/-! ### Commerce throttle controller (jobs/shopify.ts) -/

/-- Cost telemetry attached to a commerce GraphQL response.
Numbers are modelled as rationals; `requestedQueryCost` is optional in the
source (`requestedQueryCost?: number`). -/
structure ShopifyThrottleStatus where
  currentlyAvailable : ℚ
  maximumAvailable : ℚ
  restoreRate : ℚ
  requestedQueryCost : Option ℚ
deriving DecidableEq

/-- Embeds `computeThrottleDelayMs` from jobs/shopify.ts.  The source returns a
number of milliseconds; every branch yields an integer, so the model returns ℤ.
`status.requestedQueryCost ?? 0` is `Option.getD`, `Math.ceil` is `Int.ceil`,
and the guard `status.restoreRate > 0 ? status.restoreRate : 50` supplies the
default restore rate. -/
def computeThrottleDelayMs (status : Option ShopifyThrottleStatus) : ℤ :=
  match status with
  | none => 0
  | some status =>
    if status.currentlyAvailable > status.maximumAvailable * 0.2 then 0
    else
      let requested := status.requestedQueryCost.getD 0
      if requested = 0 ∨ requested ≤ status.currentlyAvailable then 0
      else
        let deficit := requested - status.currentlyAvailable
        if deficit ≤ 0 then 0
        else
          let restoreRate := if status.restoreRate > 0 then status.restoreRate else 50
          let waitSeconds := deficit / restoreRate
          ⌈waitSeconds * 1000⌉ + 200

/-- The delay rule exactly as the specification words it, for comparison with
`computeThrottleDelayMs`: "delay = ⌈(requested_query_cost − currently_available)
/ restore_rate⌉ seconds + 200 ms safety margin", i.e. the ceiling is taken in
whole seconds before converting to milliseconds. -/
def throttleDelaySpecMs (status : Option ShopifyThrottleStatus) : ℤ :=
  match status with
  | none => 0
  | some status =>
    if status.currentlyAvailable > status.maximumAvailable * 0.2 then 0
    else
      let requested := status.requestedQueryCost.getD 0
      if requested ≤ status.currentlyAvailable then 0
      else 1000 * ⌈(requested - status.currentlyAvailable) / status.restoreRate⌉ + 200

/-! ### Dispatcher (job-dispatcher.ts) -/

/-- Default dispatcher sleep between empty polls, in milliseconds. -/
def DEFAULT_POLL_INTERVAL_MS : ℚ := 5000

/-- Embeds `getPollInterval` from job-dispatcher.ts.  `jsNumber` models the JS
`Number(value)` conversion together with the `Number.isFinite` check: it
returns `none` when the string does not convert to a finite number.  A missing
or empty environment value is falsy (`!value`) and yields the default; a finite
parse is used only when strictly positive. -/
def getPollInterval (jsNumber : String → Option ℚ) (value : Option String) : ℚ :=
  match value with
  | none => DEFAULT_POLL_INTERVAL_MS
  | some s =>
    if s = "" then DEFAULT_POLL_INTERVAL_MS
    else
      match jsNumber s with
      | none => DEFAULT_POLL_INTERVAL_MS
      | some parsed => if parsed > 0 then parsed else DEFAULT_POLL_INTERVAL_MS

/-- Embeds `truncateErrorMessage` from job-dispatcher.ts.  JS strings are
modelled as lists of UTF-16 code units so that `message.length`,
`message.slice(0, 1000)` and the appended one-character truncation indicator
`…` keep their source meaning. -/
def truncateErrorMessage (message : List Char) : List Char :=
  if message.length ≤ 1000 then message else message.take 1000 ++ ['…']

/-- A row of the `sync_runs` table, restricted to the columns the dispatcher
and scheduler read or write.  Timestamps are integers (a fixed resolution such
as epoch minutes); nullable columns are options. -/
structure SyncRunRow where
  integration_id : String
  job_type : String
  status : String
  trigger : String
  created_at : ℤ
  started_at : Option ℤ
  finished_at : Option ℤ
  rate_limited : Option Bool
  rate_limit_reset_at : Option ℤ
  error_code : Option String
  error_message : Option (List Char)
  stats : Option String
deriving DecidableEq

/-- The claim condition of `claimNextRun`: `status = 'queued' AND (rate_limited
IS DISTINCT FROM TRUE OR rate_limit_reset_at <= NOW())`. -/
def claimEligible (now : ℤ) (run : SyncRunRow) : Prop :=
  run.status = "queued" ∧
    (run.rate_limited ≠ some true ∨ ∃ t, run.rate_limit_reset_at = some t ∧ t ≤ now)

/-- The UPDATE performed by `claimNextRun` on the claimed row: status becomes
`running`, `started_at = NOW()`, and both error fields are cleared. -/
def claimNextRunUpdate (now : ℤ) (run : SyncRunRow) : SyncRunRow :=
  { run with
    status := "running"
    started_at := some now
    error_code := none
    error_message := none }

/-- The UPDATE performed by `completeRunSuccess`. -/
def completeRunSuccess (now : ℤ) (run : SyncRunRow) (stats : Option String) : SyncRunRow :=
  { run with
    status := "success"
    finished_at := some now
    stats := some (stats.getD "\x7b\x7d") }

/-- The UPDATE performed by `completeRunError`: status `error`, `finished_at =
NOW()`, `error_code = COALESCE(error_code, 'worker_error')`, and the truncated
message. -/
def completeRunError (now : ℤ) (run : SyncRunRow) (message : List Char) : SyncRunRow :=
  { run with
    status := "error"
    finished_at := some now
    error_code := some (run.error_code.getD "worker_error")
    error_message := some (truncateErrorMessage message) }

/-- The keys of the dispatcher's `JOB_HANDLERS` record in job-dispatcher.ts. -/
def KNOWN_JOB_TYPES : List String :=
  ["shopify_7d_fill", "shopify_fresh", "shopify_sessions", "meta_7d_fill", "meta_fresh"]

/-- Modelled from the spec: the body of `isKnownJobType` lives in the
job-types module, which is not present under src/; its behaviour is fixed by
the dispatcher's `JOB_HANDLERS : Record<JobType, JobHandler>` table in
job-dispatcher.ts, whose keys enumerate the `JobType` union, so a job type is
known exactly when it is one of those five keys. -/
def isKnownJobType (jobType : String) : Bool :=
  KNOWN_JOB_TYPES.contains jobType

/-- Outcome of driving a job handler: the handler either returns a stats
payload or raises an error carrying a message. -/
inductive HandlerOutcome where
  | success (stats : Option String)
  | failure (message : List Char)

/-- Embeds `runSingleJob` from job-dispatcher.ts as a transition on the claimed
run row.  `resolveHandler` returns null exactly when `isKnownJobType` is false,
in which case the run is terminated via `completeRunError` with the message
`Unknown job type: <type>`; otherwise the handler outcome decides between
`completeRunSuccess` and `completeRunError`.  The function is total: the
dispatcher loop always proceeds to its next iteration. -/
def runSingleJob (now : ℤ) (run : SyncRunRow) (outcome : HandlerOutcome) : SyncRunRow :=
  if isKnownJobType run.job_type then
    match outcome with
    | .success stats => completeRunSuccess now run stats
    | .failure message => completeRunError now run message
  else
    completeRunError now run ("Unknown job type: " ++ run.job_type).data

/-! ### Cursor logic of the commerce handlers (jobs/shopify.ts)

Cursor values are ISO-8601 timestamp strings; the source compares them with
the JS string operators `>` and `<=`, modelled by the lexicographic order on
`String`.  The JS `Date` round-trip performed by `isoStringOrNull` is a
foreign runtime function and is passed in as the parameter `jsDateIso`:
`jsDateIso s` is `new Date(s).toISOString()`, or `none` when the parse yields
`NaN`. -/

/-- Embeds `maxIsoString` from jobs/shopify.ts.  `!value` is JS falsiness on a
nullable string: null or the empty string. -/
def maxIsoString : Option String → Option String → Option String
  | none, valueB => valueB
  | some a, valueB =>
    if a = "" then valueB
    else
      match valueB with
      | none => some a
      | some b => if b = "" then some a else if a > b then some a else some b

/-- Embeds `isoStringOrNull` from jobs/shopify.ts, with the JS Date round-trip
abstracted as `jsDateIso`. -/
def isoStringOrNull (jsDateIso : String → Option String) :
    Option String → Option String
  | none => none
  | some value => if value = "" then none else jsDateIso value

/-- One step of the running maximum of `orderUpdatedAt` values in the paging
loop of `fetchShopifyOrders`: the accumulator is replaced when
`!maxUpdatedAt || normalized.orderUpdatedAt > maxUpdatedAt`. -/
def fetchMaxStep (maxUpdatedAt : Option String) (u : String) : Option String :=
  match maxUpdatedAt with
  | none => some u
  | some m => if m = "" ∨ u > m then some u else some m

/-- The `maxUpdatedAt` value accumulated by the paging loop of
`fetchShopifyOrders` over the fetched orders, starting from null. -/
def fetchMaxUpdatedAt (updatedAts : List String) : Option String :=
  updatedAts.foldl fetchMaxStep none

/-- Embeds `setCursorIfMissing` from jobs/shopify.ts as a transition on the
cursor row for (integration, shopify_fresh, last_synced_order_updated_at): the
`INSERT ... ON CONFLICT DO NOTHING` writes only when no row exists, and the
returned boolean reports whether a row was inserted. -/
def setCursorIfMissing (cursor : Option String) (cursorValue : String) :
    Option String × Bool :=
  match cursor with
  | some v => (some v, false)
  | none => (some cursorValue, true)

/-- The cursor effect of `runShopifyFreshJob` in jobs/shopify.ts, as a function
of the previous cursor and the maximum `updated_at` over the fetched orders.
The run computes `maxUpdatedAt = maxIsoString(previousCursor,
fetchResult.maxUpdatedAt)`; when that is truthy it passes a `cursorUpdate`
closure which normalises it with `isoStringOrNull`, refuses to write when a
previous cursor exists and `nextCursor <= previousCursor`, and otherwise
stores `nextCursor` via `setCursorValue` (upsert).  The boolean is the
`cursorAdvanced` flag. -/
def runShopifyFreshCursor (jsDateIso : String → Option String)
    (previousCursor : Option String) (fetchedMaxUpdatedAt : Option String) :
    Option String × Bool :=
  let maxUpdatedAt := maxIsoString previousCursor fetchedMaxUpdatedAt
  match maxUpdatedAt with
  | none => (previousCursor, false)
  | some m =>
    if m = "" then (previousCursor, false)
    else
      match isoStringOrNull jsDateIso (some m) with
      | none => (previousCursor, false)
      | some nextCursor =>
        match previousCursor with
        | some p =>
          if p ≠ "" ∧ nextCursor ≤ p then (some p, false)
          else (some nextCursor, true)
        | none => (some nextCursor, true)

/-- The stored cursor after a sequence of `shopify_fresh` runs, each run
described by the list of `updated_at` values of the orders it fetched. -/
def freshCursorAfterRuns (jsDateIso : String → Option String)
    (cursor : Option String) (batches : List (List String)) : Option String :=
  batches.foldl
    (fun c batch => (runShopifyFreshCursor jsDateIso c (fetchMaxUpdatedAt batch)).1)
    cursor

/-- The cursor effect of `runShopifySevenDayFillJob` in jobs/shopify.ts: when
at least one order was fetched, the maximum observed `updated_at` is
normalised with `isoStringOrNull`; unless that yields null, the cursor row is
initialised via `setCursorIfMissing`.  With no fetched orders the cursor is
untouched. -/
def runShopifySevenDayFillCursor (jsDateIso : String → Option String)
    (cursor : Option String) (updatedAts : List String) : Option String × Bool :=
  match updatedAts with
  | [] => (cursor, false)
  | _ :: _ =>
    match isoStringOrNull jsDateIso (fetchMaxUpdatedAt updatedAts) with
    | none => (cursor, false)
    | some maxUpdatedAt => setCursorIfMissing cursor maxUpdatedAt

/-! ### Scheduler endpoint (api/jobs/meta-fresh route) -/

/-- A row of the `integrations` table, restricted to the columns the scheduler
reads. -/
structure Integration where
  integration_id : String
  type : String
  status : String
deriving DecidableEq

/-- The candidate CTE of `enqueueMetaFreshRuns`: integrations of type `meta`
with status in (`connected`, `active`). -/
def metaFreshCandidates (integrations : List Integration) : List Integration :=
  integrations.filter
    (fun i => decide (i.type = "meta" ∧ (i.status = "connected" ∨ i.status = "active")))

/-- The dedup subquery of `enqueueMetaFreshRuns`: a `queued` or `running`
`meta_fresh` run for this integration with `created_at >= NOW() - (N minutes)`.
Time is measured in minutes. -/
def hasRecentMetaFreshRun (intervalMinutes now : ℤ) (runs : List SyncRunRow)
    (integrationId : String) : Bool :=
  runs.any
    (fun sr => decide (sr.integration_id = integrationId ∧ sr.job_type = "meta_fresh" ∧
      (sr.status = "queued" ∨ sr.status = "running") ∧
      now - intervalMinutes ≤ sr.created_at))

/-- The row inserted by the scheduler for one candidate integration:
`job_type = 'meta_fresh'`, `status = 'queued'`, `trigger = 'auto'`, with
`created_at` defaulting to the insertion time and every other column at its
default. -/
def newMetaFreshRun (now : ℤ) (integrationId : String) : SyncRunRow :=
  { integration_id := integrationId
    job_type := "meta_fresh"
    status := "queued"
    trigger := "auto"
    created_at := now
    started_at := none
    finished_at := none
    rate_limited := none
    rate_limit_reset_at := none
    error_code := none
    error_message := none
    stats := none }

/-- Embeds the single SQL statement of `enqueueMetaFreshRuns` as a
transformation of the `sync_runs` table together with the reported count of
inserted rows. -/
def enqueueMetaFreshRuns (intervalMinutes now : ℤ) (integrations : List Integration)
    (runs : List SyncRunRow) : List SyncRunRow × ℕ :=
  let inserted :=
    (metaFreshCandidates integrations).filter
      (fun c => !(hasRecentMetaFreshRun intervalMinutes now runs c.integration_id))
  (runs ++ inserted.map (fun c => newMetaFreshRun now c.integration_id), inserted.length)

/-! ### Daily summary rebuild (daily-summary.ts) -/

/-- A row of `daily_shopify_metrics`, restricted to the columns the summary
rebuild reads.  `revenue_net` is SQL numeric, modelled as ℚ; `orders` is an
integer count. -/
structure DailyShopifyMetricsRow where
  account_id : String
  date : String
  revenue_net : ℚ
  orders : ℤ
deriving DecidableEq

/-- A row of `daily_meta_metrics`, restricted to the columns the summary
rebuild reads. -/
structure DailyMetaMetricsRow where
  account_id : String
  date : String
  spend : ℚ
deriving DecidableEq

/-- A row of the `daily_summary` table as inserted by `rebuildDailySummary`. -/
structure DailySummaryRow where
  account_id : String
  date : String
  revenue_net : ℚ
  meta_spend : ℚ
  mer : Option ℚ
  orders : ℤ
  aov : ℚ
deriving DecidableEq

/-- `COALESCE(s.revenue_net, 0)` for one date: the shopify CTE sums
`revenue_net` over the account's `daily_shopify_metrics` rows at that date,
and the LEFT JOIN coalesces a missing group to 0 — which coincides with the
sum over the empty list. -/
def shopifyRevenueNetFor (rows : List DailyShopifyMetricsRow)
    (accountId d : String) : ℚ :=
  ((rows.filter (fun r => decide (r.account_id = accountId ∧ r.date = d))).map
    (fun r => r.revenue_net)).sum

/-- `COALESCE(s.orders, 0)` for one date, as in `shopifyRevenueNetFor`. -/
def shopifyOrdersFor (rows : List DailyShopifyMetricsRow)
    (accountId d : String) : ℤ :=
  ((rows.filter (fun r => decide (r.account_id = accountId ∧ r.date = d))).map
    (fun r => r.orders)).sum

/-- `COALESCE(m.spend, 0)` for one date: the meta CTE sums `spend` over the
account's `daily_meta_metrics` rows at that date. -/
def metaSpendFor (rows : List DailyMetaMetricsRow) (accountId d : String) : ℚ :=
  ((rows.filter (fun r => decide (r.account_id = accountId ∧ r.date = d))).map
    (fun r => r.spend)).sum

/-- The `daily_summary` row produced by the INSERT ... SELECT of
`rebuildDailySummary` for one date of the `date_inputs` CTE, including its two
CASE expressions for `mer` and `aov`. -/
def dailySummaryRowFor (shopify : List DailyShopifyMetricsRow)
    (meta : List DailyMetaMetricsRow) (accountId d : String) : DailySummaryRow :=
  let revenue_net := shopifyRevenueNetFor shopify accountId d
  let spend := metaSpendFor meta accountId d
  let orders := shopifyOrdersFor shopify accountId d
  { account_id := accountId
    date := d
    revenue_net := revenue_net
    meta_spend := spend
    mer := if spend > 0 then some (revenue_net / spend) else none
    orders := orders
    aov := if orders > 0 then revenue_net / (orders : ℚ) else 0 }

/-- Embeds `rebuildDailySummary` from daily-summary.ts as a transformation of
the `daily_summary` table: an early return on an empty date set, then DELETE of
the account's rows at the given dates followed by INSERT of one freshly
aggregated row per date input. -/
def rebuildDailySummary (accountId : String) (dates : List String)
    (shopify : List DailyShopifyMetricsRow) (meta : List DailyMetaMetricsRow)
    (summary : List DailySummaryRow) : List DailySummaryRow :=
  if dates = [] then summary
  else
    summary.filter (fun r => !decide (r.account_id = accountId ∧ r.date ∈ dates))
      ++ dates.map (fun d => dailySummaryRowFor shopify meta accountId d)

/-- The law the specification states for every stored summary row. -/
def dailySummaryLaw (r : DailySummaryRow) : Prop :=
  (r.mer = if r.meta_spend > 0 then some (r.revenue_net / r.meta_spend) else none)
  ∧ (r.aov = if r.orders > 0 then r.revenue_net / (r.orders : ℚ) else 0)

/-! ### Order monetary normalisation (jobs/shopify.ts) -/

/-- `ShopifyMoney`: `amount` is a string or number in the source; the model
keeps the numeric value the string parses to, with `none` covering null,
undefined and an unparseable (NaN) amount. -/
structure ShopifyMoney where
  amount : Option ℚ
  currencyCode : Option String
deriving DecidableEq

/-- A `{ shopMoney?: ShopifyMoney | null } | null` price-set wrapper. -/
structure MoneySet where
  shopMoney : Option ShopifyMoney
deriving DecidableEq

/-- An order node of the commerce GraphQL response. -/
structure ShopifyOrderNode where
  id : String
  name : Option String
  orderNumber : Option ℤ
  createdAt : String
  updatedAt : String
  displayFinancialStatus : Option String
  displayFulfillmentStatus : Option String
  currencyCode : Option String
  currentTotalPriceSet : Option MoneySet
  totalPriceSet : Option MoneySet
  totalRefundedSet : Option MoneySet
deriving DecidableEq

/-- The optional chain `set?.shopMoney` used by `normalizeOrder`. -/
def moneyOf (s : Option MoneySet) : Option ShopifyMoney :=
  s.bind (fun ms => ms.shopMoney)

/-- Embeds `parseMoney` from jobs/shopify.ts: a missing money object or a
falsy / NaN amount yields 0 (the source's `!raw || Number.isNaN(raw)` check),
otherwise the parsed amount itself. -/
def parseMoney (money : Option ShopifyMoney) : ℚ :=
  match money with
  | none => 0
  | some money =>
    match money.amount with
    | none => 0
    | some raw => if raw = 0 then 0 else raw

/-- Embeds `toDateOnly`: `value.slice(0, 10)`. -/
def toDateOnly (value : String) : String := value.take 10

/-- Embeds `normalizeOrderStatus`: the financial and fulfillment statuses are
filtered by JS truthiness (dropping null and the empty string) and joined with
" / "; null when both are absent. -/
def normalizeOrderStatus (node : ShopifyOrderNode) : Option String :=
  let segments :=
    ([node.displayFinancialStatus, node.displayFulfillmentStatus].filterMap id).filter
      (fun s => !(s = ""))
  if segments = [] then none else some (String.intercalate " / " segments)

/-- The `orderName` computation of `normalizeOrder`: `node.name ??
(typeof node.orderNumber === "number" ? "#<n>" :
node.id.replace("gid://shopify/Order/", "order_"))`. -/
def orderNameOf (node : ShopifyOrderNode) : String :=
  match node.name with
  | some n => n
  | none =>
    match node.orderNumber with
    | some num => "#" ++ toString num
    | none => node.id.replace "gid://shopify/Order/" "order_"

/-- The normalised order produced by `normalizeOrder`. -/
structure NormalizedShopifyOrder where
  shopifyOrderId : String
  orderName : String
  orderCreatedAt : String
  orderUpdatedAt : String
  orderDate : String
  orderStatus : Option String
  totalGross : ℚ
  totalNet : ℚ
  refundTotal : ℚ
  currencyCode : Option String
  raw : ShopifyOrderNode
deriving DecidableEq

/-- Embeds `normalizeOrder` from jobs/shopify.ts.  The currency falls through
`node.currencyCode ?? current.currencyCode ?? total.currencyCode ?? null`; the
gross uses the JS `||` operator, so a current total that parses to 0 falls
back to the plain total; net is clamped at 0. -/
def normalizeOrder (node : ShopifyOrderNode) : NormalizedShopifyOrder :=
  let currencyCode :=
    (node.currencyCode.orElse
      (fun _ => (moneyOf node.currentTotalPriceSet).bind (fun m => m.currencyCode))).orElse
      (fun _ => (moneyOf node.totalPriceSet).bind (fun m => m.currencyCode))
  let grossCurrent := parseMoney (moneyOf node.currentTotalPriceSet)
  let gross := if grossCurrent = 0 then parseMoney (moneyOf node.totalPriceSet) else grossCurrent
  let refunds := parseMoney (moneyOf node.totalRefundedSet)
  let net := max (gross - refunds) 0
  { shopifyOrderId := node.id
    orderName := orderNameOf node
    orderCreatedAt := node.createdAt
    orderUpdatedAt := node.updatedAt
    orderDate := toDateOnly node.createdAt
    orderStatus := normalizeOrderStatus node
    totalGross := gross
    totalNet := net
    refundTotal := refunds
    currencyCode := currencyCode
    raw := node }

/-- Integration details loaded by `loadShopifyIntegration`; `currency` is the
shop's currency (nullable). -/
structure ShopifyIntegrationDetails where
  integrationId : String
  accountId : String
  shopId : String
  shopDomain : String
  accessToken : String
  currency : Option String
  timezone : Option String
deriving DecidableEq

/-- A row of the `fact_orders` table as inserted by `replaceFactOrders`. -/
structure FactOrderRow where
  integration_id : String
  shop_id : String
  account_id : String
  order_created_at : String
  order_date : String
  order_number : String
  order_status : Option String
  total_gross : ℚ
  total_net : ℚ
  refund_total : ℚ
  currency : Option String
deriving DecidableEq

/-- The VALUES tuple `replaceFactOrders` pushes for one normalised order; the
persisted currency is `order.currencyCode ?? integration.currency ?? null`. -/
def factOrderRowOf (integration : ShopifyIntegrationDetails)
    (order : NormalizedShopifyOrder) : FactOrderRow :=
  { integration_id := integration.integrationId
    shop_id := integration.shopId
    account_id := integration.accountId
    order_created_at := order.orderCreatedAt
    order_date := order.orderDate
    order_number := order.orderName
    order_status := order.orderStatus
    total_gross := order.totalGross
    total_net := order.totalNet
    refund_total := order.refundTotal
    currency := order.currencyCode.orElse (fun _ => integration.currency) }

/-- Embeds `replaceFactOrders` from jobs/shopify.ts as a transformation of the
`fact_orders` table: an early return on an empty order list, then DELETE of the
integration's rows whose `order_number` is among the fetched order names,
followed by INSERT of one row per order. -/
def replaceFactOrders (integration : ShopifyIntegrationDetails)
    (orders : List NormalizedShopifyOrder) (facts : List FactOrderRow) :
    List FactOrderRow :=
  if orders = [] then facts
  else
    facts.filter
      (fun r => !decide (r.integration_id = integration.integrationId ∧
        r.order_number ∈ orders.map (fun o => o.orderName)))
      ++ orders.map (fun o => factOrderRowOf integration o)

/-- The claim's strict reading of the gross rule, for comparison with
`normalizeOrder`: "gross = the order's current total when available else its
total", i.e. the current total is used whenever its amount is present. -/
def grossPerClaim (node : ShopifyOrderNode) : ℚ :=
  match (moneyOf node.currentTotalPriceSet).bind (fun m => m.amount) with
  | some a => a
  | none => parseMoney (moneyOf node.totalPriceSet)

/-! ### Concrete sample data for scenario-level statements -/

/-- A connected meta integration used in concrete scheduler scenarios. -/
def metaIntegrationA : Integration :=
  { integration_id := "A"
    type := "meta"
    status := "connected" }

/-- A queued `meta_fresh` sync run created 59 minutes before time 0 (still
inside a 60-minute dedup window at time 0, outside it at time 30). -/
def staleQueuedRun : SyncRunRow :=
  { newMetaFreshRun 0 "A" with created_at := -59 }

/-- A queued run whose `job_type` matches no handler key, carrying a stale
error_code from a previous life of the row. -/
def bogusJobRun : SyncRunRow :=
  { newMetaFreshRun 0 "A" with
    job_type := "bogus"
    trigger := "user"
    error_code := some "previous" }

/-- An order node whose current total is present with amount 0 while the plain
total is 5 — the JS `||` fallback makes the code use 5. -/
def zeroCurrentTotalNode : ShopifyOrderNode :=
  { id := "gid://shopify/Order/1"
    name := some "#1001"
    orderNumber := none
    createdAt := "2026-01-20T10:00:00Z"
    updatedAt := "2026-01-21T09:00:00Z"
    displayFinancialStatus := some "refunded"
    displayFulfillmentStatus := none
    currencyCode := some "AUD"
    currentTotalPriceSet :=
      some { shopMoney := some { amount := some 0, currencyCode := some "AUD" } }
    totalPriceSet :=
      some { shopMoney := some { amount := some 5, currencyCode := some "AUD" } }
    totalRefundedSet :=
      some { shopMoney := some { amount := some 5, currencyCode := some "AUD" } } }

/-- An ordinary paid order node with a nonzero current total. -/
def paidOrderNode : ShopifyOrderNode :=
  { id := "gid://shopify/Order/2"
    name := some "#1002"
    orderNumber := none
    createdAt := "2026-01-20T10:00:00Z"
    updatedAt := "2026-01-21T09:00:00Z"
    displayFinancialStatus := some "paid"
    displayFulfillmentStatus := some "fulfilled"
    currencyCode := some "AUD"
    currentTotalPriceSet :=
      some { shopMoney := some { amount := some 150, currencyCode := some "AUD" } }
    totalPriceSet :=
      some { shopMoney := some { amount := some 150, currencyCode := some "AUD" } }
    totalRefundedSet := none }

/-- Integration details of a sample shop. -/
def sampleIntegration : ShopifyIntegrationDetails :=
  { integrationId := "int1"
    accountId := "acct1"
    shopId := "shop1"
    shopDomain := "example.myshopify.com"
    accessToken := "token"
    currency := some "AUD"
    timezone := some "Australia/Sydney" }

/-! ## Helper lemmas on the string order and the fetched maximum -/

theorem string_empty_le (s : String) : "" ≤ s := by
  rw [String.le_iff_toList_le]
  exact List.nil_le

theorem foldl_fetchMaxStep_some (l : List String) :
    ∀ a : String, ∃ m, List.foldl fetchMaxStep (some a) l = some m ∧
      (m = a ∨ m ∈ l) ∧ a ≤ m ∧ ∀ u ∈ l, u ≤ m := by
  induction l with
  | nil =>
    intro a
    exact ⟨a, rfl, Or.inl rfl, le_rfl, by simp⟩
  | cons u t ih =>
    intro a
    rw [List.foldl_cons]
    by_cases h : a = "" ∨ u > a
    · obtain ⟨m, hm, hmem, hum, hub⟩ := ih u
      have hstep : fetchMaxStep (some a) u = some u := by
        simp only [fetchMaxStep]
        exact if_pos h
      rw [hstep]
      refine ⟨m, hm, ?_, ?_, ?_⟩
      · rcases hmem with rfl | hmem
        · exact Or.inr (List.mem_cons_self _ _)
        · exact Or.inr (List.mem_cons_of_mem _ hmem)
      · rcases h with rfl | h
        · exact string_empty_le m
        · exact le_trans (le_of_lt h) hum
      · intro v hv
        rcases List.mem_cons.mp hv with rfl | hv
        · exact hum
        · exact hub v hv
    · obtain ⟨m, hm, hmem, ham, hub⟩ := ih a
      have hstep : fetchMaxStep (some a) u = some a := by
        simp only [fetchMaxStep]
        exact if_neg h
      rw [hstep]
      push_neg at h
      refine ⟨m, hm, ?_, ham, ?_⟩
      · rcases hmem with rfl | hmem
        · exact Or.inl rfl
        · exact Or.inr (List.mem_cons_of_mem _ hmem)
      · intro v hv
        rcases List.mem_cons.mp hv with rfl | hv
        · exact le_trans (not_lt.mp h.2) ham
        · exact hub v hv

theorem fetchMaxUpdatedAt_spec (l : List String) (m : String)
    (h : fetchMaxUpdatedAt l = some m) : m ∈ l ∧ ∀ u ∈ l, u ≤ m := by
  cases l with
  | nil => simp [fetchMaxUpdatedAt] at h
  | cons u t =>
    rw [fetchMaxUpdatedAt, List.foldl_cons] at h
    obtain ⟨m', hm', hmem, hum, hub⟩ := foldl_fetchMaxStep_some t u
    rw [show fetchMaxStep none u = some u from rfl, hm'] at h
    obtain rfl := Option.some.inj h
    constructor
    · rcases hmem with rfl | hmem
      · exact List.mem_cons_self _ _
      · exact List.mem_cons_of_mem _ hmem
    · intro v hv
      rcases List.mem_cons.mp hv with rfl | hv
      · exact hum
      · exact hub v hv

theorem fetchMaxUpdatedAt_isSome (l : List String) (h : l ≠ []) :
    ∃ m, fetchMaxUpdatedAt l = some m := by
  cases l with
  | nil => exact absurd rfl h
  | cons u t =>
    obtain ⟨m, hm, -⟩ := foldl_fetchMaxStep_some t u
    refine ⟨m, ?_⟩
    rw [fetchMaxUpdatedAt, List.foldl_cons]
    exact hm

/-! ## Helper lemmas on the fresh-run cursor transition -/

theorem runShopifyFreshCursor_mono (jsDateIso : String → Option String)
    (p : String) (fm : Option String) :
    ∃ q, (runShopifyFreshCursor jsDateIso (some p) fm).1 = some q ∧ p ≤ q := by
  rcases hmax : maxIsoString (some p) fm with _ | m
  · exact ⟨p, by simp [runShopifyFreshCursor, hmax], le_rfl⟩
  · by_cases hm : m = ""
    · exact ⟨p, by simp [runShopifyFreshCursor, hmax, hm], le_rfl⟩
    · rcases hjs : jsDateIso m with _ | next
      · exact ⟨p, by simp [runShopifyFreshCursor, isoStringOrNull, hmax, hm, hjs], le_rfl⟩
      · by_cases hguard : p ≠ "" ∧ next ≤ p
        · refine ⟨p, ?_, le_rfl⟩
          simp [runShopifyFreshCursor, hmax, isoStringOrNull, hm, hjs, hguard.1, hguard.2]
        · refine ⟨next, ?_, ?_⟩
          · simp only [runShopifyFreshCursor, hmax, isoStringOrNull, if_neg hm, hjs]
            rw [if_neg hguard]
          · by_cases hp : p = ""
            · exact hp ▸ string_empty_le next
            · exact le_of_not_le fun hle => hguard ⟨hp, hle⟩

theorem freshCursorAfterRuns_mono (jsDateIso : String → Option String)
    (batches : List (List String)) :
    ∀ p : String, ∃ q, freshCursorAfterRuns jsDateIso (some p) batches = some q ∧ p ≤ q := by
  induction batches with
  | nil => exact fun p => ⟨p, rfl, le_rfl⟩
  | cons b bs ih =>
    intro p
    obtain ⟨q1, hq1, hpq1⟩ := runShopifyFreshCursor_mono jsDateIso p (fetchMaxUpdatedAt b)
    obtain ⟨q2, hq2, hq12⟩ := ih q1
    refine ⟨q2, ?_, le_trans hpq1 hq12⟩
    rw [freshCursorAfterRuns, List.foldl_cons, hq1]
    exact hq2

theorem runShopifyFreshCursor_advanced (jsDateIso : String → Option String)
    (prev fm : Option String)
    (h : (runShopifyFreshCursor jsDateIso prev fm).2 = true) :
    (runShopifyFreshCursor jsDateIso prev fm).1 =
      isoStringOrNull jsDateIso (maxIsoString prev fm) := by
  rcases hmax : maxIsoString prev fm with _ | m
  · rw [show runShopifyFreshCursor jsDateIso prev fm =
      (prev, false) by simp [runShopifyFreshCursor, hmax]] at h
    simp at h
  · by_cases hm : m = ""
    · rw [show runShopifyFreshCursor jsDateIso prev fm =
        (prev, false) by simp [runShopifyFreshCursor, hmax, hm]] at h
      simp at h
    · rcases hjs : jsDateIso m with _ | next
      · rw [show runShopifyFreshCursor jsDateIso prev fm = (prev, false) by
          simp [runShopifyFreshCursor, isoStringOrNull, hmax, hm, hjs]] at h
        simp at h
      · have hiso : isoStringOrNull jsDateIso (some m) = some next := by
          simp [isoStringOrNull, hm, hjs]
        rcases prev with _ | p
        · simp [runShopifyFreshCursor, hmax, hiso, hm]
        · by_cases hguard : p ≠ "" ∧ next ≤ p
          · rw [show runShopifyFreshCursor jsDateIso (some p) fm = (some p, false) by
              simp [runShopifyFreshCursor, hmax, isoStringOrNull, hm, hjs,
                hguard.1, hguard.2]] at h
            simp at h
          · simp only [runShopifyFreshCursor, hmax, isoStringOrNull, if_neg hm, hjs]
            rw [if_neg hguard]

theorem runShopifyFreshCursor_unchanged (jsDateIso : String → Option String)
    (p : String) (orders : List String) (hjs : jsDateIso p = some p) (hne : p ≠ "")
    (horders : ∀ u ∈ orders, u ≤ p) :
    runShopifyFreshCursor jsDateIso (some p) (fetchMaxUpdatedAt orders) = (some p, false) := by
  have hmax : maxIsoString (some p) (fetchMaxUpdatedAt orders) = some p := by
    rcases hfm : fetchMaxUpdatedAt orders with _ | m
    · simp [maxIsoString, hne]
    · obtain ⟨hmem, -⟩ := fetchMaxUpdatedAt_spec orders m hfm
      have hmp : m ≤ p := horders m hmem
      by_cases hm : m = ""
      · simp [maxIsoString, hne, hm]
      · by_cases hpm : p > m
        · simp [maxIsoString, hne, hm, hpm]
        · have hmpp : m = p := le_antisymm hmp (not_lt.mp hpm)
          simp [maxIsoString, hne, hm, hpm, hmpp]
  simp [runShopifyFreshCursor, hmax, isoStringOrNull, hne, hjs]

/-! ## Claim theorems: cursor invariants -/

/-- C1: across any sequence of successful `shopify_fresh` runs with a stored
previous cursor, the cursor is monotonically non-decreasing; whenever a run
advances the cursor, the written value is the (Date-normalised) maximum of the
previous cursor and the fetched orders' `updated_at` values; and a run whose
fetched orders all have `updated_at ≤ previous cursor` leaves the cursor
unchanged.  Hypotheses: the stored cursor is a non-empty canonical ISO string,
so the JS Date round-trip maps it to itself. -/
theorem shopifyFreshCursor_monotonic (jsDateIso : String → Option String)
    (p : String) (batches : List (List String)) (batch : List String)
    (orders : List String)
    (hjs : jsDateIso p = some p) (hne : p ≠ "") (horders : ∀ u ∈ orders, u ≤ p) :
    (∃ q, freshCursorAfterRuns jsDateIso (some p) batches = some q ∧ p ≤ q)
    ∧ ((runShopifyFreshCursor jsDateIso (some p) (fetchMaxUpdatedAt batch)).2 = true →
        (runShopifyFreshCursor jsDateIso (some p) (fetchMaxUpdatedAt batch)).1 =
          isoStringOrNull jsDateIso (maxIsoString (some p) (fetchMaxUpdatedAt batch)))
    ∧ runShopifyFreshCursor jsDateIso (some p) (fetchMaxUpdatedAt orders) = (some p, false) :=
  ⟨freshCursorAfterRuns_mono jsDateIso batches p,
    runShopifyFreshCursor_advanced jsDateIso (some p) (fetchMaxUpdatedAt batch),
    runShopifyFreshCursor_unchanged jsDateIso p orders hjs hne horders⟩

/-- Witness for C1 at `jsDateIso = Option.some`, previous cursor `"b"`, one run
fetching `["a"]` in the sequence, an advancing batch `["c"]`, and a stale batch
`["a"]`. -/
theorem shopifyFreshCursor_monotonic_witness :
    (∃ q, freshCursorAfterRuns Option.some (some "b") [["a"]] = some q ∧ "b" ≤ q)
    ∧ ((runShopifyFreshCursor Option.some (some "b") (fetchMaxUpdatedAt ["c"])).2 = true →
        (runShopifyFreshCursor Option.some (some "b") (fetchMaxUpdatedAt ["c"])).1 =
          isoStringOrNull Option.some (maxIsoString (some "b") (fetchMaxUpdatedAt ["c"])))
    ∧ runShopifyFreshCursor Option.some (some "b") (fetchMaxUpdatedAt ["a"]) = (some "b", false) :=
  shopifyFreshCursor_monotonic Option.some "b" [["a"]] ["c"] ["a"] rfl (by decide)
    (by
      intro u hu
      rw [List.mem_singleton] at hu
      subst hu
      rw [String.le_iff_toList_le]
      decide)

/-- C5: a `shopify_7d_fill` run never changes an existing cursor row, whatever
orders it fetched; when the cursor row is absent and at least one order was
fetched, the run initialises the cursor to the maximum `updated_at` observed
among the fetched orders (assuming that value is a non-empty canonical ISO
string, so the JS Date round-trip maps it to itself). -/
theorem shopifySevenDayFill_cursor_frame (jsDateIso : String → Option String)
    (c : String) (os orders : List String) (m : String)
    (hm : fetchMaxUpdatedAt orders = some m) (hm0 : m ≠ "") (hjs : jsDateIso m = some m) :
    (runShopifySevenDayFillCursor jsDateIso (some c) os).1 = some c
    ∧ runShopifySevenDayFillCursor jsDateIso none orders = (some m, true)
    ∧ m ∈ orders ∧ ∀ u ∈ orders, u ≤ m := by
  obtain ⟨hmem, hub⟩ := fetchMaxUpdatedAt_spec orders m hm
  refine ⟨?_, ?_, hmem, hub⟩
  · cases os with
    | nil => rfl
    | cons u t =>
      rcases h : isoStringOrNull jsDateIso (fetchMaxUpdatedAt (u :: t)) with _ | mm
      · simp [runShopifySevenDayFillCursor, h]
      · simp [runShopifySevenDayFillCursor, h, setCursorIfMissing]
  · cases orders with
    | nil => simp [fetchMaxUpdatedAt] at hm
    | cons u t =>
      simp [runShopifySevenDayFillCursor, hm, isoStringOrNull, hm0, hjs, setCursorIfMissing]

/-- Witness for C5 at `jsDateIso = Option.some`, existing cursor `"b"` with a
fetched batch `["x"]`, and an absent cursor with fetched batch `["a"]`. -/
theorem shopifySevenDayFill_cursor_frame_witness :
    (runShopifySevenDayFillCursor Option.some (some "b") ["x"]).1 = some "b"
    ∧ runShopifySevenDayFillCursor Option.some none ["a"] = (some "a", true)
    ∧ "a" ∈ ["a"] ∧ ∀ u ∈ ["a"], u ≤ "a" :=
  shopifySevenDayFill_cursor_frame Option.some "b" ["x"] ["a"] "a" rfl (by decide) rfl

/-! ## Claim theorems: daily summary -/

/-- C2: every (account, date) row written by the daily-summary rebuild stores
`mer = revenue_net / meta_spend` when spend > 0 and null otherwise, and
`aov = revenue_net / orders` when orders > 0 and 0 otherwise; consequently the
law holds for every row of the table after any successful rebuild, provided it
held before for the untouched rows. -/
theorem rebuildDailySummary_law (accountId : String) (dates : List String)
    (shopify : List DailyShopifyMetricsRow) (meta : List DailyMetaMetricsRow)
    (summary : List DailySummaryRow)
    (hprev : ∀ r ∈ summary, dailySummaryLaw r) :
    (∀ d ∈ dates, dailySummaryLaw (dailySummaryRowFor shopify meta accountId d))
    ∧ ∀ r ∈ rebuildDailySummary accountId dates shopify meta summary, dailySummaryLaw r := by
  have hrow : ∀ d : String, dailySummaryLaw (dailySummaryRowFor shopify meta accountId d) := by
    intro d
    exact ⟨rfl, rfl⟩
  refine ⟨fun d _ => hrow d, ?_⟩
  intro r hr
  rw [rebuildDailySummary] at hr
  split at hr
  · exact hprev r hr
  · rcases List.mem_append.mp hr with h | h
    · exact hprev r (List.mem_of_mem_filter h)
    · obtain ⟨d, -, rfl⟩ := List.mem_map.mp h
      exact hrow d

/-- Witness for C2: a rebuild of 2026-01-20 for account `acct1` from one
shopify metrics row (revenue 150, 1 order) and no ads rows, on an empty
summary table. -/
theorem rebuildDailySummary_law_witness :
    (∀ d ∈ ["2026-01-20"],
      dailySummaryLaw (dailySummaryRowFor
        [{ account_id := "acct1", date := "2026-01-20", revenue_net := 150, orders := 1 }]
        [] "acct1" d))
    ∧ ∀ r ∈ rebuildDailySummary "acct1" ["2026-01-20"]
        [{ account_id := "acct1", date := "2026-01-20", revenue_net := 150, orders := 1 }]
        [] [], dailySummaryLaw r :=
  rebuildDailySummary_law "acct1" ["2026-01-20"]
    [{ account_id := "acct1", date := "2026-01-20", revenue_net := 150, orders := 1 }]
    [] [] (by simp)

/-! ## Claim theorems: throttle controller -/

/-- C3 counterexample: at telemetry (currently_available 10, maximum_available
100, restore_rate 50, requested_query_cost 85) the code computes
`Math.ceil(1.5 * 1000) + 200 = 1700` ms, while the claim's whole-second
ceiling `⌈1.5⌉ s + 200 ms` gives 2200 ms. -/
theorem computeThrottleDelayMs_counterexample :
    computeThrottleDelayMs
        (some { currentlyAvailable := 10, maximumAvailable := 100,
                restoreRate := 50, requestedQueryCost := some 85 }) = 1700
    ∧ throttleDelaySpecMs
        (some { currentlyAvailable := 10, maximumAvailable := 100,
                restoreRate := 50, requestedQueryCost := some 85 }) = 2200
    ∧ (1700 : ℤ) ≠ 2200 := by
  have hceil : (⌈(3:ℚ) / 2⌉ : ℤ) = 2 := by
    rw [Int.ceil_eq_iff]
    norm_num
  refine ⟨?_, ?_, by norm_num⟩
  · norm_num [computeThrottleDelayMs]
  · norm_num [throttleDelaySpecMs, hceil]

/-- C3 (amended): unknown or missing telemetry yields no delay; no delay when
`currently_available` exceeds 20% of `maximum_available` or when the requested
cost is at most `currently_available`; otherwise the delay is the
millisecond-ceiling of `(requested − available) / restore_rate` seconds plus
the 200 ms safety margin — the ceiling is applied to the value in
milliseconds, not in whole seconds. -/
theorem computeThrottleDelayMs_rule (st : ShopifyThrottleStatus) (q : ℚ)
    (hbuffer : ¬ st.currentlyAvailable > st.maximumAvailable * 0.2)
    (hq : st.requestedQueryCost = some q) (hq0 : q ≠ 0)
    (hgt : ¬ q ≤ st.currentlyAvailable) :
    computeThrottleDelayMs none = 0
    ∧ (∀ s : ShopifyThrottleStatus, s.currentlyAvailable > s.maximumAvailable * 0.2 →
        computeThrottleDelayMs (some s) = 0)
    ∧ (∀ s : ShopifyThrottleStatus, s.requestedQueryCost.getD 0 ≤ s.currentlyAvailable →
        computeThrottleDelayMs (some s) = 0)
    ∧ computeThrottleDelayMs (some st) =
        ⌈(q - st.currentlyAvailable) /
          (if st.restoreRate > 0 then st.restoreRate else 50) * 1000⌉ + 200 := by
  refine ⟨rfl, ?_, ?_, ?_⟩
  · intro s h
    simp [computeThrottleDelayMs, h]
  · intro s h
    by_cases hb : s.currentlyAvailable > s.maximumAvailable * 0.2
    · simp [computeThrottleDelayMs, hb]
    · have hc : s.requestedQueryCost.getD 0 = 0 ∨
          s.requestedQueryCost.getD 0 ≤ s.currentlyAvailable := Or.inr h
      simp [computeThrottleDelayMs, hb, hc]
  · have hreq : st.requestedQueryCost.getD 0 = q := by rw [hq]; rfl
    simp [computeThrottleDelayMs, hbuffer, hreq, hq0, hgt]

/-- Witness for C3 at the telemetry (10, 100, 50, requested 85). -/
theorem computeThrottleDelayMs_rule_witness :
    computeThrottleDelayMs none = 0
    ∧ (∀ s : ShopifyThrottleStatus, s.currentlyAvailable > s.maximumAvailable * 0.2 →
        computeThrottleDelayMs (some s) = 0)
    ∧ (∀ s : ShopifyThrottleStatus, s.requestedQueryCost.getD 0 ≤ s.currentlyAvailable →
        computeThrottleDelayMs (some s) = 0)
    ∧ computeThrottleDelayMs
        (some { currentlyAvailable := 10, maximumAvailable := 100,
                restoreRate := 50, requestedQueryCost := some 85 }) =
        ⌈((85:ℚ) - 10) / (if (50:ℚ) > 0 then (50:ℚ) else 50) * 1000⌉ + 200 :=
  computeThrottleDelayMs_rule
    { currentlyAvailable := 10, maximumAvailable := 100,
      restoreRate := 50, requestedQueryCost := some 85 } 85
    (by norm_num) rfl (by norm_num) (by norm_num)

/-- C10: the throttle computation is total and safe: it never returns a
negative delay, and a zero or negative `restore_rate` is replaced by the
default 50 points/second, so the division is always by a positive rate. -/
theorem computeThrottleDelayMs_total (st : ShopifyThrottleStatus)
    (hrr : st.restoreRate ≤ 0) :
    (∀ s : Option ShopifyThrottleStatus, 0 ≤ computeThrottleDelayMs s)
    ∧ computeThrottleDelayMs (some st) =
        computeThrottleDelayMs (some { st with restoreRate := 50 }) := by
  constructor
  · rintro (_ | s)
    · exact le_refl 0
    · simp only [computeThrottleDelayMs]
      split_ifs with h1 h2 h3 h4 <;> try exact le_refl 0
      · have hd : (0:ℚ) < s.requestedQueryCost.getD 0 - s.currentlyAvailable :=
          lt_of_not_le h3
        have hw : (0:ℚ) ≤ (s.requestedQueryCost.getD 0 - s.currentlyAvailable) /
            s.restoreRate * 1000 := by positivity
        have := Int.ceil_nonneg hw
        omega
      · have hd : (0:ℚ) < s.requestedQueryCost.getD 0 - s.currentlyAvailable :=
          lt_of_not_le h3
        have hw : (0:ℚ) ≤ (s.requestedQueryCost.getD 0 - s.currentlyAvailable) /
            50 * 1000 := by positivity
        have := Int.ceil_nonneg hw
        omega
  · have h50 : (0:ℚ) < 50 := by norm_num
    simp [computeThrottleDelayMs, not_lt.mpr hrr, h50]

/-- Witness for C10 at telemetry with restore_rate 0. -/
theorem computeThrottleDelayMs_total_witness :
    (∀ s : Option ShopifyThrottleStatus, 0 ≤ computeThrottleDelayMs s)
    ∧ computeThrottleDelayMs
        (some { currentlyAvailable := 10, maximumAvailable := 100,
                restoreRate := 0, requestedQueryCost := some 85 }) =
      computeThrottleDelayMs
        (some { currentlyAvailable := 10, maximumAvailable := 100,
                restoreRate := 50, requestedQueryCost := some 85 }) :=
  computeThrottleDelayMs_total
    { currentlyAvailable := 10, maximumAvailable := 100,
      restoreRate := 0, requestedQueryCost := some 85 } (by norm_num)

/-! ## Claim theorems: scheduler endpoint -/

/-- C4 counterexample: one connected meta integration, and a queued
`meta_fresh` run created 59 minutes before the first call.  With N = 60, the
first call (time 0) inserts 0 rows, and a second call 30 minutes later — within
N minutes, no run having terminated in between — inserts 1 row, because the
blocking run has fallen out of the dedup window. -/
theorem enqueueMetaFreshRuns_counterexample :
    (enqueueMetaFreshRuns 60 0 [metaIntegrationA] [staleQueuedRun]).2 = 0
    ∧ (enqueueMetaFreshRuns 60 30 [metaIntegrationA]
        (enqueueMetaFreshRuns 60 0 [metaIntegrationA] [staleQueuedRun]).1).2 = 1 := by
  decide

/-- C4 (amended): an authorised, flag-enabled scheduler invocation inserts a
Sync Run with job_type `meta_fresh`, status `queued`, trigger `auto` exactly
for the connected/active meta integrations with no queued or running
`meta_fresh` run created within the last N minutes; and a second invocation
within N minutes inserts zero rows provided every queued or running
`meta_fresh` run present before the first call is still inside the dedup
window at the second call time (in particular when there were none). -/
theorem enqueueMetaFreshRuns_spec (N now now2 : ℤ) (integrations : List Integration)
    (runs : List SyncRunRow)
    (hnodup : (integrations.map (fun i => i.integration_id)).Nodup)
    (h2 : now2 ≤ now + N)
    (hold : ∀ sr ∈ runs, sr.job_type = "meta_fresh" →
      (sr.status = "queued" ∨ sr.status = "running") → now2 - N ≤ sr.created_at) :
    (∀ i ∈ integrations,
      (newMetaFreshRun now i.integration_id ∈
          ((enqueueMetaFreshRuns N now integrations runs).1).drop runs.length
        ↔ (i.type = "meta" ∧ (i.status = "connected" ∨ i.status = "active")
            ∧ hasRecentMetaFreshRun N now runs i.integration_id = false)))
    ∧ (∀ r ∈ ((enqueueMetaFreshRuns N now integrations runs).1).drop runs.length,
        r.job_type = "meta_fresh" ∧ r.status = "queued" ∧ r.trigger = "auto"
          ∧ r.created_at = now)
    ∧ (enqueueMetaFreshRuns N now2 integrations
        (enqueueMetaFreshRuns N now integrations runs).1).2 = 0 := by
  have hdrop : ((enqueueMetaFreshRuns N now integrations runs).1).drop runs.length
      = ((metaFreshCandidates integrations).filter
          (fun c => !(hasRecentMetaFreshRun N now runs c.integration_id))).map
          (fun c => newMetaFreshRun now c.integration_id) := by
    simp only [enqueueMetaFreshRuns]
    exact List.drop_left _ _
  refine ⟨?_, ?_, ?_⟩
  · intro i hi
    constructor
    · intro hmem
      rw [hdrop] at hmem
      obtain ⟨c, hc, heq⟩ := List.mem_map.mp hmem
      have hcid : c.integration_id = i.integration_id := by
        simpa [newMetaFreshRun] using congrArg SyncRunRow.integration_id heq
      obtain ⟨hcmem, hcnot⟩ := List.mem_filter.mp hc
      obtain ⟨hcint, hcpred⟩ := List.mem_filter.mp hcmem
      have hprops := of_decide_eq_true hcpred
      have hci : c = i := List.inj_on_of_nodup_map hnodup hcint hi hcid
      subst hci
      refine ⟨hprops.1, hprops.2, ?_⟩
      simpa using hcnot
    · rintro ⟨htype, hstatus, hrecent⟩
      rw [hdrop]
      refine List.mem_map.mpr ⟨i, List.mem_filter.mpr ⟨?_, ?_⟩, rfl⟩
      · exact List.mem_filter.mpr ⟨hi, decide_eq_true ⟨htype, hstatus⟩⟩
      · simp [hrecent]
  · intro r hr
    rw [hdrop] at hr
    obtain ⟨c, -, rfl⟩ := List.mem_map.mp hr
    exact ⟨rfl, rfl, rfl, rfl⟩
  · have hall : ∀ c ∈ metaFreshCandidates integrations,
        hasRecentMetaFreshRun N now2 (enqueueMetaFreshRuns N now integrations runs).1
          c.integration_id = true := by
      intro c hc
      by_cases hrec : hasRecentMetaFreshRun N now runs c.integration_id = true
      · rw [hasRecentMetaFreshRun, List.any_eq_true] at hrec
        obtain ⟨sr, hsr, hdec⟩ := hrec
        obtain ⟨hid, hjob, hstatus, -⟩ := of_decide_eq_true hdec
        have hcreated := hold sr hsr hjob hstatus
        rw [hasRecentMetaFreshRun, List.any_eq_true]
        refine ⟨sr, ?_, decide_eq_true ⟨hid, hjob, hstatus, hcreated⟩⟩
        simp only [enqueueMetaFreshRuns]
        exact List.mem_append_left _ hsr
      · have hfalse : hasRecentMetaFreshRun N now runs c.integration_id = false :=
          Bool.eq_false_iff.mpr hrec
        have hmem : newMetaFreshRun now c.integration_id ∈
            (enqueueMetaFreshRuns N now integrations runs).1 := by
          simp only [enqueueMetaFreshRuns]
          exact List.mem_append_right _
            (List.mem_map.mpr ⟨c, List.mem_filter.mpr ⟨hc, by simp [hfalse]⟩, rfl⟩)
        rw [hasRecentMetaFreshRun, List.any_eq_true]
        exact ⟨newMetaFreshRun now c.integration_id, hmem,
          decide_eq_true ⟨rfl, rfl, Or.inl rfl, show now2 - N ≤ now by linarith⟩⟩
    have hnil : ((metaFreshCandidates integrations).filter
        (fun c => !(hasRecentMetaFreshRun N now2
          (enqueueMetaFreshRuns N now integrations runs).1 c.integration_id))) = [] := by
      rw [List.filter_eq_nil_iff]
      intro c hc hcontra
      rw [hall c hc] at hcontra
      simp at hcontra
    have hsnd : (enqueueMetaFreshRuns N now2 integrations
        (enqueueMetaFreshRuns N now integrations runs).1).2
        = ((metaFreshCandidates integrations).filter
            (fun c => !(hasRecentMetaFreshRun N now2
              (enqueueMetaFreshRuns N now integrations runs).1 c.integration_id))).length :=
      rfl
    rw [hsnd, hnil]
    rfl

/-- Witness for C4 at N = 60, calls at times 0 and 30, one connected meta
integration, and no pre-existing runs. -/
theorem enqueueMetaFreshRuns_spec_witness :
    (∀ i ∈ [metaIntegrationA],
      (newMetaFreshRun 0 i.integration_id ∈
          ((enqueueMetaFreshRuns 60 0 [metaIntegrationA] []).1).drop ([] : List SyncRunRow).length
        ↔ (i.type = "meta" ∧ (i.status = "connected" ∨ i.status = "active")
            ∧ hasRecentMetaFreshRun 60 0 [] i.integration_id = false)))
    ∧ (∀ r ∈ ((enqueueMetaFreshRuns 60 0 [metaIntegrationA] []).1).drop
          ([] : List SyncRunRow).length,
        r.job_type = "meta_fresh" ∧ r.status = "queued" ∧ r.trigger = "auto"
          ∧ r.created_at = 0)
    ∧ (enqueueMetaFreshRuns 60 30 [metaIntegrationA]
        (enqueueMetaFreshRuns 60 0 [metaIntegrationA] []).1).2 = 0 :=
  enqueueMetaFreshRuns_spec 60 0 30 [metaIntegrationA] []
    (by simp) (by norm_num) (by simp)

/-! ## Claim theorems: order monetary normalisation -/

/-- C6 counterexample: an order whose current total is present with amount 0
while its total is 5 gets gross 5 from the code (JS `||` falls through on 0),
whereas the claim's "current total when available" reading gives 0. -/
theorem normalizeOrder_gross_counterexample :
    (normalizeOrder zeroCurrentTotalNode).totalGross = 5
    ∧ grossPerClaim zeroCurrentTotalNode = 0
    ∧ (5 : ℚ) ≠ 0 := by
  refine ⟨?_, ?_, by norm_num⟩
  · have hz : parseMoney (moneyOf zeroCurrentTotalNode.currentTotalPriceSet) = 0 := by
      norm_num [parseMoney, moneyOf, zeroCurrentTotalNode]
    show (if (parseMoney (moneyOf zeroCurrentTotalNode.currentTotalPriceSet) = 0)
      then parseMoney (moneyOf zeroCurrentTotalNode.totalPriceSet)
      else parseMoney (moneyOf zeroCurrentTotalNode.currentTotalPriceSet)) = 5
    rw [if_pos hz]
    norm_num [parseMoney, moneyOf, zeroCurrentTotalNode]
  · norm_num [grossPerClaim, moneyOf, zeroCurrentTotalNode]

/-- C6 (amended): gross is the order's current total when that parses to a
nonzero amount and the plain total otherwise (in particular whenever the
current total is absent); net = max(gross − refunds, 0); refund_total is the
parsed refund total (0 when absent); the currency persisted on the fact row is
the order's normalised currency when present (the order currencyCode, falling
back to the price-set currency codes) and the shop's currency otherwise. -/
theorem normalizeOrder_money (integration : ShopifyIntegrationDetails)
    (node : ShopifyOrderNode) (a : ℚ) (c : String)
    (hcur : (moneyOf node.currentTotalPriceSet).bind (fun m => m.amount) = some a)
    (ha : a ≠ 0) (hc : node.currencyCode = some c) :
    (normalizeOrder node).totalGross = a
    ∧ (∀ n : ShopifyOrderNode, parseMoney (moneyOf n.currentTotalPriceSet) = 0 →
        (normalizeOrder n).totalGross = parseMoney (moneyOf n.totalPriceSet))
    ∧ (∀ n : ShopifyOrderNode, (normalizeOrder n).totalNet =
        max ((normalizeOrder n).totalGross - parseMoney (moneyOf n.totalRefundedSet)) 0)
    ∧ (∀ n : ShopifyOrderNode, (normalizeOrder n).refundTotal =
        parseMoney (moneyOf n.totalRefundedSet))
    ∧ (normalizeOrder node).currencyCode = some c
    ∧ (factOrderRowOf integration (normalizeOrder node)).currency = some c
    ∧ (∀ o : NormalizedShopifyOrder, o.currencyCode = none →
        (factOrderRowOf integration o).currency = integration.currency) := by
  have hpm : parseMoney (moneyOf node.currentTotalPriceSet) = a := by
    rcases hmm : moneyOf node.currentTotalPriceSet with _ | mm
    · rw [hmm] at hcur
      simp at hcur
    · rw [hmm] at hcur
      simp only [Option.some_bind] at hcur
      simp [parseMoney, hcur, ha]
  have hcc : (normalizeOrder node).currencyCode = some c := by
    simp [normalizeOrder, hc, Option.orElse]
  refine ⟨?_, ?_, fun n => rfl, fun n => rfl, hcc, ?_, ?_⟩
  · show (if (parseMoney (moneyOf node.currentTotalPriceSet) = 0)
      then parseMoney (moneyOf node.totalPriceSet)
      else parseMoney (moneyOf node.currentTotalPriceSet)) = a
    rw [hpm, if_neg ha]
  · intro n hn
    show (if (parseMoney (moneyOf n.currentTotalPriceSet) = 0)
      then parseMoney (moneyOf n.totalPriceSet)
      else parseMoney (moneyOf n.currentTotalPriceSet)) = parseMoney (moneyOf n.totalPriceSet)
    rw [if_pos hn]
  · show (normalizeOrder node).currencyCode.orElse (fun _ => integration.currency) = some c
    rw [hcc]
    rfl
  · intro o ho
    show o.currencyCode.orElse (fun _ => integration.currency) = integration.currency
    rw [ho]
    rfl

/-- Witness for C6 at a paid order with current total 150 and currency AUD. -/
theorem normalizeOrder_money_witness :
    (normalizeOrder paidOrderNode).totalGross = 150
    ∧ (∀ n : ShopifyOrderNode, parseMoney (moneyOf n.currentTotalPriceSet) = 0 →
        (normalizeOrder n).totalGross = parseMoney (moneyOf n.totalPriceSet))
    ∧ (∀ n : ShopifyOrderNode, (normalizeOrder n).totalNet =
        max ((normalizeOrder n).totalGross - parseMoney (moneyOf n.totalRefundedSet)) 0)
    ∧ (∀ n : ShopifyOrderNode, (normalizeOrder n).refundTotal =
        parseMoney (moneyOf n.totalRefundedSet))
    ∧ (normalizeOrder paidOrderNode).currencyCode = some "AUD"
    ∧ (factOrderRowOf sampleIntegration (normalizeOrder paidOrderNode)).currency = some "AUD"
    ∧ (∀ o : NormalizedShopifyOrder, o.currencyCode = none →
        (factOrderRowOf sampleIntegration o).currency = sampleIntegration.currency) :=
  normalizeOrder_money sampleIntegration paidOrderNode 150 "AUD" rfl (by norm_num) rfl

/-! ## Claim theorems: bounded error message -/

/-- C7 counterexample: a 1001-character message is stored as its first 1000
characters followed by the truncation indicator — 1001 characters, exceeding
the claimed 1000-character bound. -/
theorem completeRunError_length_counterexample :
    ((completeRunError 0 bogusJobRun (List.replicate 1001 'a')).error_message.getD
        []).length = 1001
    ∧ ¬ (1001 ≤ 1000) := by
  constructor
  · have hlen : (List.replicate 1001 'a').length = 1001 := by
      rw [List.length_replicate]
    have htr : truncateErrorMessage (List.replicate 1001 'a') =
        (List.replicate 1001 'a').take 1000 ++ ['…'] := by
      rw [truncateErrorMessage, if_neg (by simp only [hlen]; norm_num)]
    have hmsg : (completeRunError 0 bogusJobRun (List.replicate 1001 'a')).error_message
        = some (truncateErrorMessage (List.replicate 1001 'a')) := rfl
    rw [hmsg, Option.getD_some, htr, List.length_append, List.length_take, hlen]
    norm_num
  · norm_num

/-- C7 (amended): the stored error_message is the truncation of the input; a
message of at most 1000 characters is stored verbatim, and a longer one is
stored as its first 1000 characters plus the one-character indicator `…`, so
the stored length is bounded by 1001 (and equals 1001 in the truncated case),
not 1000. -/
theorem completeRunError_bounded (now : ℤ) (run : SyncRunRow) (message : List Char)
    (hlong : 1000 < message.length) :
    (completeRunError now run message).error_message = some (truncateErrorMessage message)
    ∧ (∀ msg : List Char, (truncateErrorMessage msg).length ≤ 1001)
    ∧ (∀ msg : List Char, msg.length ≤ 1000 → truncateErrorMessage msg = msg)
    ∧ truncateErrorMessage message = message.take 1000 ++ ['…']
    ∧ (truncateErrorMessage message).length = 1001 := by
  have htr : truncateErrorMessage message = message.take 1000 ++ ['…'] := by
    rw [truncateErrorMessage, if_neg (not_le.mpr hlong)]
  refine ⟨rfl, ?_, ?_, htr, ?_⟩
  · intro msg
    rw [truncateErrorMessage]
    split_ifs with h
    · omega
    · simp only [List.length_append, List.length_take, List.length_singleton]
      omega
  · intro msg h
    rw [truncateErrorMessage, if_pos h]
  · rw [htr]
    simp only [List.length_append, List.length_take, List.length_singleton]
    omega

/-- Witness for C7 at a 1001-character message. -/
theorem completeRunError_bounded_witness :
    (completeRunError 0 bogusJobRun (List.replicate 1001 'a')).error_message =
        some (truncateErrorMessage (List.replicate 1001 'a'))
    ∧ (∀ msg : List Char, (truncateErrorMessage msg).length ≤ 1001)
    ∧ (∀ msg : List Char, msg.length ≤ 1000 → truncateErrorMessage msg = msg)
    ∧ truncateErrorMessage (List.replicate 1001 'a') =
        (List.replicate 1001 'a').take 1000 ++ ['…']
    ∧ (truncateErrorMessage (List.replicate 1001 'a')).length = 1001 :=
  completeRunError_bounded 0 bogusJobRun (List.replicate 1001 'a')
    (by rw [List.length_replicate]; norm_num)

/-! ## Claim theorems: unknown job type -/

/-- C8 counterexample: a claimed queued run with job_type `bogus` is terminated
with error_code `worker_error`, not `unknown_job_type`: `claimNextRun` clears
error_code, so the COALESCE in `completeRunError` always lands on the default
bucket. -/
theorem runSingleJob_unknown_counterexample :
    (runSingleJob 1 (claimNextRunUpdate 0 bogusJobRun) (HandlerOutcome.success none)).status
        = "error"
    ∧ (runSingleJob 1 (claimNextRunUpdate 0 bogusJobRun)
        (HandlerOutcome.success none)).error_code = some "worker_error"
    ∧ (runSingleJob 1 (claimNextRunUpdate 0 bogusJobRun)
        (HandlerOutcome.success none)).error_code ≠ some "unknown_job_type" := by
  decide

/-- C8 (amended): whenever the dispatcher claims a queued run whose job_type is
not a known handler key, it terminates that run with status `error`,
error_message `Unknown job type: <type>` (truncated) and error_code
`worker_error` — the claim transaction cleared error_code, so the COALESCE
default applies and `unknown_job_type` is never stored; the dispatcher step is
a total function, so the loop continues with the next iteration. -/
theorem runSingleJob_unknown (claimTime now : ℤ) (run : SyncRunRow)
    (outcome : HandlerOutcome) (h : isKnownJobType run.job_type = false) :
    (runSingleJob now (claimNextRunUpdate claimTime run) outcome).status = "error"
    ∧ (runSingleJob now (claimNextRunUpdate claimTime run) outcome).error_code =
        some "worker_error"
    ∧ (runSingleJob now (claimNextRunUpdate claimTime run) outcome).error_message =
        some (truncateErrorMessage ("Unknown job type: " ++ run.job_type).data) := by
  have hjt : (claimNextRunUpdate claimTime run).job_type = run.job_type := rfl
  simp only [runSingleJob, hjt, h]
  exact ⟨rfl, rfl, rfl⟩

/-- Witness for C8 at the queued run with job_type `bogus`. -/
theorem runSingleJob_unknown_witness :
    (runSingleJob 1 (claimNextRunUpdate 0 bogusJobRun) (HandlerOutcome.failure [])).status
        = "error"
    ∧ (runSingleJob 1 (claimNextRunUpdate 0 bogusJobRun)
        (HandlerOutcome.failure [])).error_code = some "worker_error"
    ∧ (runSingleJob 1 (claimNextRunUpdate 0 bogusJobRun)
        (HandlerOutcome.failure [])).error_message =
        some (truncateErrorMessage ("Unknown job type: " ++ bogusJobRun.job_type).data) :=
  runSingleJob_unknown 0 1 bogusJobRun (HandlerOutcome.failure []) (by decide)

/-! ## Claim theorems: poll interval -/

/-- C9 counterexample: with the poll-interval variable set to a string parsing
to 100, the dispatcher sleeps 100 ms — below the claimed 1000 ms floor. -/
theorem getPollInterval_floor_counterexample :
    getPollInterval (fun _ => some 100) (some "100") = 100
    ∧ ¬ ((1000 : ℚ) ≤ 100) := by
  constructor
  · rw [getPollInterval, if_neg (by decide)]
    show (if (100:ℚ) > 0 then (100:ℚ) else DEFAULT_POLL_INTERVAL_MS) = 100
    rw [if_pos (by norm_num)]
  · norm_num

/-- C9 (amended): the dispatcher sleep is 5000 ms when the variable is unset,
empty, or does not parse to a finite number, and also when the parsed value is
not strictly positive; any strictly positive finite value is used as-is — no
1000 ms floor is applied. -/
theorem getPollInterval_rule (jsNumber : String → Option ℚ) (s : String) (q : ℚ)
    (hs : s ≠ "") (hq : jsNumber s = some q) (hpos : 0 < q) :
    getPollInterval jsNumber none = 5000
    ∧ (∀ t : String, jsNumber t = none → getPollInterval jsNumber (some t) = 5000)
    ∧ (∀ t : String, ∀ r : ℚ, jsNumber t = some r → r ≤ 0 →
        getPollInterval jsNumber (some t) = 5000)
    ∧ getPollInterval jsNumber (some s) = q := by
  refine ⟨rfl, ?_, ?_, ?_⟩
  · intro t ht
    by_cases h0 : t = ""
    · rw [getPollInterval, if_pos h0]
      rfl
    · rw [getPollInterval, if_neg h0, ht]
      rfl
  · intro t r ht hr
    by_cases h0 : t = ""
    · rw [getPollInterval, if_pos h0]
      rfl
    · rw [getPollInterval, if_neg h0, ht]
      exact if_neg (not_lt.mpr hr)
  · rw [getPollInterval, if_neg hs, hq]
    exact if_pos hpos

/-- Witness for C9 at a variable parsing to 100. -/
theorem getPollInterval_rule_witness :
    getPollInterval (fun _ => some 100) none = 5000
    ∧ (∀ t : String, (fun _ => some (100:ℚ)) t = none →
        getPollInterval (fun _ => some 100) (some t) = 5000)
    ∧ (∀ t : String, ∀ r : ℚ, (fun _ => some (100:ℚ)) t = some r → r ≤ 0 →
        getPollInterval (fun _ => some 100) (some t) = 5000)
    ∧ getPollInterval (fun _ => some 100) (some "100") = 100 :=
  getPollInterval_rule (fun _ => some 100) "100" 100 (by decide) rfl (by norm_num)

end Dashboard
